import Mathlib

/-!
Shallow embedding of `qiskit/providers/ibmq/ibmqbackend.py` (class `IBMQBackend`).

Python dictionaries are modelled as association lists with CPython semantics:
`d[k] = v` overwrites the first occurrence of `k` in place and otherwise appends,
and `dict.update` / double-splat merging applies such single-key writes left to
right.  Raised Python exceptions are modelled with `Except` over an explicit
error type; warnings emitted via `warnings.warn` are collected in a list that is
returned alongside the result.  The injected API client is modelled as an oracle:
each operation receives the raw response the client would return, and the calls
the operation performs on the client are recorded in a trace.
-/

set_option autoImplicit false

/-- Association list standing for a Python `dict` with `String` keys. -/
abbrev Dict (α : Type) : Type := List (String × α)

namespace Dict

/-- Python `d.get(k)` / `k in d`: first entry whose key is `k`. -/
def get {α : Type} : Dict α → String → Option α
  | [], _ => none
  | p :: rest, k => if p.1 = k then some p.2 else get rest k

/-- Python `d[k] = v`: overwrite the first occurrence of `k`, else append. -/
def insert {α : Type} : Dict α → String → α → Dict α
  | [], k, v => [(k, v)]
  | p :: rest, k, v => if p.1 = k then (k, v) :: rest else p :: insert rest k v

/-- Python `a.update(b)` (also `\x7b**a, **b\x7d`): write every entry of `b` into `a`,
left to right, so `b` wins on key collisions. -/
def update {α : Type} (a b : Dict α) : Dict α :=
  b.foldl (fun acc p => insert acc p.1 p.2) a

/-- The keys of the dictionary, in order. -/
def keys {α : Type} (d : Dict α) : List String := d.map (·.1)

end Dict

/-- Model of `qiskit.providers.JobStatus` (external enum): the seven member names. -/
inductive JobStatus : Type
  | INITIALIZING
  | QUEUED
  | VALIDATING
  | RUNNING
  | CANCELLED
  | DONE
  | ERROR
  deriving DecidableEq, Repr

/-- Python `JobStatus[s]` name lookup; `none` models the raised `KeyError`. -/
def JobStatus.fromString? : String → Option JobStatus
  | "INITIALIZING" => some JobStatus.INITIALIZING
  | "QUEUED" => some JobStatus.QUEUED
  | "VALIDATING" => some JobStatus.VALIDATING
  | "RUNNING" => some JobStatus.RUNNING
  | "CANCELLED" => some JobStatus.CANCELLED
  | "DONE" => some JobStatus.DONE
  | "ERROR" => some JobStatus.ERROR
  | _ => none

/-- The `status` argument of `IBMQBackend.jobs`: `None`, a `JobStatus` member,
or a string (its name). -/
inductive StatusArg : Type
  | pynone
  | enum (s : JobStatus)
  | str (s : String)
  deriving DecidableEq, Repr

/-- Python truthiness of the `status` argument: `None` and `""` are falsy,
enum members and non-empty strings are truthy. -/
def StatusArg.truthy : StatusArg → Bool
  | StatusArg.pynone => false
  | StatusArg.enum _ => true
  | StatusArg.str s => s ≠ ""

/-- Values stored in a loopback query filter: the string and nested-object
constants used by `IBMQBackend.jobs`, plus opaque caller-supplied values. -/
inductive FilterVal : Type
  /-- A plain string predicate value. -/
  | str (s : String)
  /-- The nested object whose single key is the string e-x-i-s-t-s, as in the
  RUNNING predicate. -/
  | existsPred (b : Bool)
  /-- The nested object whose single key is `regexp`, as in the ERROR predicate. -/
  | regexpPred (s : String)
  /-- An opaque value supplied by the caller through `db_filter`. -/
  | raw (n : Nat)
  deriving DecidableEq, Repr

/-- Python exceptions that the modelled code can raise. -/
inductive PyError : Type
  /-- `KeyError` from an unguarded dictionary / enum-name lookup. -/
  | keyError (k : String)
  /-- `TypeError`, e.g. from `str.join` over a `None` element. -/
  | typeError (msg : String)
  /-- `IBMQBackendValueError`. -/
  | ibmqBackendValueError (msg : String)
  /-- `IBMQBackendError`. -/
  | ibmqBackendError (msg : String)
  /-- `LookupError`. -/
  | lookupError (msg : String)
  deriving DecidableEq, Repr

/-- Warnings emitted through `warnings.warn`. -/
inductive Warn : Type
  /-- A plain `UserWarning`. -/
  | user (msg : String)
  /-- A `DeprecationWarning`. -/
  | deprecation (msg : String)
  deriving DecidableEq, Repr

/-- A raw mapping response from the API client (opaque payload). -/
abbrev RawMapping : Type := Dict String

/-- Calls the backend performs on the injected API client. -/
inductive ApiCall : Type
  | backendProperties (name : String)
  | backendStatus (name : String)
  | backendDefaults (name : String)
  | getStatusJobs (limit skip : Int) (fltr : Dict FilterVal)
  | getJob (id : String)
  deriving DecidableEq, Repr

/-- A raw job-info record as returned by `get_status_jobs`: only the fields the
code reads (`.get` returns `none` when the field is absent). -/
structure JobInfo : Type where
  id : Option String
  creationDate : Option String
  status : Option String
  kind : Option String
  deriving DecidableEq, Repr

/-- A raw job-info record as returned by `get_job`: the fields `retrieve_job`
reads.  `backend` is the optional nested mapping accessed by unguarded
indexing `job_info` at key `backend` then at key `name`. -/
structure JobResponse : Type where
  error : Option String
  backend : Option (Dict String)
  kind : Option String
  id : Option String
  creationDate : Option String
  status : Option String
  deriving DecidableEq, Repr

/-- An `IBMQJob` as constructed by `jobs` / `retrieve_job`: the data the
constructor receives from the record. -/
structure IBMQJob : Type where
  jobId : Option String
  creationDate : Option String
  apiStatus : Option String
  deriving DecidableEq, Repr

/-- Model of `BackendProperties` (external): wraps the raw response. -/
structure BackendProperties : Type where
  raw : RawMapping
  deriving DecidableEq, Repr

/-- Model of `BackendProperties.from_dict` (external, unguarded here). -/
def BackendProperties.from_dict (d : RawMapping) : BackendProperties := ⟨d⟩

/-- Model of `BackendStatus` (external): opaque deserialized status. -/
structure BackendStatus : Type where
  raw : RawMapping
  deriving DecidableEq, Repr

/-- The state of an `IBMQBackend` handle that the modelled methods read:
`self.name()` and `self.configuration().simulator`. -/
structure IBMQBackendState : Type where
  backend_name : String
  simulator : Bool
  deriving DecidableEq, Repr

namespace IBMQBackend

/-- Model of `IBMQBackend.properties`: `None` without an API call for a simulator,
otherwise one `backend_properties` call deserialized with `from_dict`.
`api_resp` is the raw response the client would return. -/
def properties (self : IBMQBackendState) (api_resp : RawMapping) :
    Option BackendProperties × List ApiCall :=
  if self.simulator then (none, [])
  else (some (BackendProperties.from_dict api_resp),
        [ApiCall.backendProperties self.backend_name])

/-- Model of `IBMQBackend.status`: deserializes the raw response with
`BackendStatus.from_dict`; a marshmallow `ValidationError` (the `Except.error`
case of the injected external deserializer `from_dict`) is re-raised as
`LookupError` wrapping the original message. -/
def status (_self : IBMQBackendState) (api_status : RawMapping)
    (from_dict : RawMapping → Except String BackendStatus) :
    Except PyError BackendStatus :=
  match from_dict api_status with
  | Except.ok st => Except.ok st
  | Except.error ex =>
      Except.error (PyError.lookupError ("Couldn't get backend status: " ++ ex))

/-- The `if/elif` chain of `IBMQBackend.jobs` mapping a `JobStatus` to its
loopback predicate set (`this_filter`); `none` for the `else` branch. -/
def statusFilterTable : JobStatus → Option (Dict FilterVal)
  | JobStatus.RUNNING =>
      some [("status", FilterVal.str "RUNNING"),
            ("infoQueue", FilterVal.existsPred false)]
  | JobStatus.QUEUED =>
      some [("status", FilterVal.str "RUNNING"),
            ("infoQueue.status", FilterVal.str "PENDING_IN_QUEUE")]
  | JobStatus.CANCELLED => some [("status", FilterVal.str "CANCELLED")]
  | JobStatus.DONE => some [("status", FilterVal.str "COMPLETED")]
  | JobStatus.ERROR => some [("status", FilterVal.regexpPred "^ERROR")]
  | _ => none

/-- Merge the status predicate into the accumulated filter
(`api_filter.update(this_filter)`), or raise `IBMQBackendValueError` for a
status outside the five handled members. -/
def applyStatusFilter (api_filter : Dict FilterVal) (st : JobStatus) :
    Except PyError (Dict FilterVal) :=
  match statusFilterTable st with
  | some this_filter => Except.ok (Dict.update api_filter this_filter)
  | none => Except.error (PyError.ibmqBackendValueError
      "unrecognized value for \"status\" keyword in job filter")

/-- Filter construction of `IBMQBackend.jobs`: base backend-name predicate,
then the status predicate (coercing a string name through `JobStatus[...]`,
whose failure is a raw `KeyError`), then
`api_filter = \x7b**db_filter, **api_filter\x7d` when `db_filter` is truthy. -/
def buildApiFilter (self : IBMQBackendState) (status : StatusArg)
    (db_filter : Option (Dict FilterVal)) : Except PyError (Dict FilterVal) :=
  let api_filter : Dict FilterVal :=
    [("backend.name", FilterVal.str self.backend_name)]
  let step2 : Except PyError (Dict FilterVal) :=
    match status with
    | StatusArg.pynone => Except.ok api_filter
    | StatusArg.str s =>
        if s = "" then Except.ok api_filter
        else
          match JobStatus.fromString? s with
          | none => Except.error (PyError.keyError s)
          | some st => applyStatusFilter api_filter st
    | StatusArg.enum st => applyStatusFilter api_filter st
  match step2 with
  | Except.error e => Except.error e
  | Except.ok flt =>
      match db_filter with
      | none => Except.ok flt
      | some f => if f.isEmpty then Except.ok flt else Except.ok (Dict.update f flt)

/-- The job handle `jobs` / `retrieve_job` builds from a record: id,
creation date and status. -/
def mkJob (j : JobInfo) : IBMQJob := ⟨j.id, j.creationDate, j.status⟩

/-- The record loop of `IBMQBackend.jobs`: build a handle per record; on the
first record whose `kind` is not the string q-object, collect its id and
`break`.  Returns the handles in order and the collected legacy ids. -/
def processLoop : List JobInfo → List IBMQJob × List (Option String)
  | [] => ([], [])
  | j :: rest =>
      if j.kind ≠ some "q-object" then ([], [j.id])
      else
        let r := processLoop rest
        (mkJob j :: r.1, r.2)

/-- Python `str.join` over a list of `.get` results: `TypeError` when an
element is `None`. -/
def seqStrings : List (Option String) → Except PyError (List String)
  | [] => Except.ok []
  | none :: _ =>
      Except.error (PyError.typeError "sequence item: expected str instance, NoneType found")
  | some s :: rest => (seqStrings rest).map (fun l => s :: l)

/-- Python `sep.join(items)` with `None` elements raising `TypeError`. -/
def pyJoin (sep : String) (items : List (Option String)) : Except PyError String :=
  (seqStrings items).map (String.intercalate sep)

/-- The deprecation-warning message of `jobs` for the joined legacy ids. -/
def oldJobsWarningMsg (job_ids : String) : String :=
  "Some jobs are in a no-longer supported format. Please send the job using Qiskit 0.8+. Old jobs:\n - " ++ job_ids

/-- Loop and warning phase of `IBMQBackend.jobs` applied to the response of
`get_status_jobs`: handles for the processed records, plus one deprecation
warning when legacy ids were collected. -/
def jobsProcess (api_response : List JobInfo) :
    Except PyError (List IBMQJob × List Warn) :=
  let r := processLoop api_response
  match r.2 with
  | [] => Except.ok (r.1, [])
  | olds =>
      (pyJoin "\n - " olds).map
        (fun job_ids => (r.1, [Warn.deprecation (oldJobsWarningMsg job_ids)]))

/-- Model of `IBMQBackend.jobs`: build the filter, call `get_status_jobs` with `limit`,
`skip` and the filter (the call is recorded in the trace; `api_response` is the
record list the client returns), then process the records. -/
def jobs (self : IBMQBackendState) (limit skip : Int) (status : StatusArg)
    (db_filter : Option (Dict FilterVal)) (api_response : List JobInfo) :
    List ApiCall × Except PyError (List IBMQJob × List Warn) :=
  match buildApiFilter self status db_filter with
  | Except.error e => ([], Except.error e)
  | Except.ok api_filter =>
      ([ApiCall.getStatusJobs limit skip api_filter], jobsProcess api_response)

/-- The message format `Failed to get job "id": detail` used by
`retrieve_job`. -/
def failMsg (job_id detail : String) : String :=
  "Failed to get job \"" ++ job_id ++ "\": " ++ detail

/-- The foreign-backend warning of `retrieve_job` (note the source fills the
query-backend slot with the job's backend name and vice versa). -/
def foreignBackendWarnMsg (job_id bname self_name : String) : String :=
  "Job \"" ++ job_id ++ "\" belongs to another backend than the one queried. The query was made on backend \"" ++ bname ++ "\", but the job actually belongs to backend \"" ++ self_name ++ "\"."

/-- The foreign-backend error message of `retrieve_job`. -/
def foreignBackendErrMsg (job_id bname : String) : String :=
  "Failed to get job \"" ++ job_id ++ "\": job does not belong to backend \"" ++ bname ++ "\"."

/-- The pre-qobj deprecation warning of `retrieve_job`. -/
def preQobjWarnMsg (job_id : String) : String :=
  "The result of job " ++ job_id ++ " is in a no longer supported format. Please send the job using Qiskit 0.8+."

/-- Model of `IBMQBackend.retrieve_job`: `fetch` is the outcome of `get_job` (`error`
is a transport-level `ApiError`, caught and re-raised as `IBMQBackendError`).
Checks in order: the `error` field; the backend name via unguarded indexing
(`KeyError` propagates, it is not an `ApiError`); the `kind` field.  Returns
the warnings emitted alongside the outcome. -/
def retrieve_job (self : IBMQBackendState) (job_id : String)
    (fetch : Except String JobResponse) : List Warn × Except PyError IBMQJob :=
  match fetch with
  | Except.error apiErrMsg =>
      ([], Except.error (PyError.ibmqBackendError (failMsg job_id apiErrMsg)))
  | Except.ok job_info =>
      match job_info.error with
      | some e => ([], Except.error (PyError.ibmqBackendError (failMsg job_id e)))
      | none =>
          match job_info.backend with
          | none => ([], Except.error (PyError.keyError "backend"))
          | some b =>
              match Dict.get b "name" with
              | none => ([], Except.error (PyError.keyError "name"))
              | some bname =>
                  if bname ≠ self.backend_name then
                    ([Warn.user (foreignBackendWarnMsg job_id bname self.backend_name)],
                     Except.error (PyError.ibmqBackendError (foreignBackendErrMsg job_id bname)))
                  else if job_info.kind ≠ some "q-object" then
                    ([Warn.deprecation (preQobjWarnMsg job_id)],
                     Except.error (PyError.ibmqBackendError (failMsg job_id "job in pre-qobj format")))
                  else
                    ([], Except.ok ⟨job_info.id, job_info.creationDate, job_info.status⟩)

/-- Whether an outcome is a raised `IBMQBackendValueError`. -/
def raisedValueError {β : Type} : Except PyError β → Bool
  | Except.error (PyError.ibmqBackendValueError _) => true
  | _ => false

end IBMQBackend

namespace Dict

theorem keys_cons {α : Type} (p : String × α) (rest : Dict α) :
    keys (p :: rest) = p.1 :: keys rest := rfl

theorem get_insert {α : Type} (d : Dict α) (k : String) (v : α) (k' : String) :
    get (insert d k v) k' = if k = k' then some v else get d k' := by
  induction d with
  | nil => simp [insert, get]
  | cons p rest ih =>
      by_cases hpk : p.1 = k
      · by_cases hkk : k = k' <;> simp [insert, get, hpk, hkk]
      · by_cases hpk' : p.1 = k'
        · have hkk : ¬ k = k' := fun h => hpk (h ▸ hpk')
          have hkk' : ¬ k' = k := fun h => hkk h.symm
          simp [insert, get, hpk, hpk', hkk, hkk']
        · simp [insert, get, hpk, hpk', ih]

theorem get_update_not_mem {α : Type} (a b : Dict α) (k : String)
    (h : k ∉ keys b) : get (update a b) k = get a k := by
  induction b generalizing a with
  | nil => simp [update]
  | cons p rest ih =>
      have hk : ¬ p.1 = k := by
        intro hpk
        exact h (by simp [keys, hpk])
      have hrest : k ∉ keys rest := by
        intro hm
        exact h (by simp [keys] at hm ⊢; exact Or.inr hm)
      have : update a (p :: rest) = update (insert a p.1 p.2) rest := by
        simp [update, List.foldl]
      rw [this, ih _ hrest, get_insert]
      simp [hk]

theorem get_update_of_mem {α : Type} (a b : Dict α) (k : String) (v : α)
    (hnd : (keys b).Nodup) (h : get b k = some v) :
    get (update a b) k = some v := by
  induction b generalizing a with
  | nil => simp [get] at h
  | cons p rest ih =>
      have hstep : update a (p :: rest) = update (insert a p.1 p.2) rest := by
        simp [update, List.foldl]
      rw [keys_cons] at hnd
      obtain ⟨hni, hnd'⟩ := List.nodup_cons.mp hnd
      by_cases hpk : p.1 = k
      · have hv : p.2 = v := by
          simp [get, hpk] at h
          exact h
        have hnotin : k ∉ keys rest := hpk ▸ hni
        rw [hstep, get_update_not_mem _ _ _ hnotin, get_insert]
        simp [hpk, hv]
      · have h' : get rest k = some v := by
          simpa [get, hpk] using h
        rw [hstep]
        exact ih _ hnd' h'

end Dict

namespace IBMQBackend

/-- Claim C1: for each of the five recognized JobStatus values, `jobs` called
with that status and no extra filter passes to `get_status_jobs` exactly the
backend-name predicate merged with the fixed predicate of the table (RUNNING,
QUEUED, CANCELLED, DONE, ERROR). -/
theorem C1_status_filter_table (self : IBMQBackendState) (limit skip : Int)
    (resp : List JobInfo) :
    (jobs self limit skip (StatusArg.enum JobStatus.RUNNING) none resp).1 =
      [ApiCall.getStatusJobs limit skip
        [("backend.name", FilterVal.str self.backend_name),
         ("status", FilterVal.str "RUNNING"),
         ("infoQueue", FilterVal.existsPred false)]] ∧
    (jobs self limit skip (StatusArg.enum JobStatus.QUEUED) none resp).1 =
      [ApiCall.getStatusJobs limit skip
        [("backend.name", FilterVal.str self.backend_name),
         ("status", FilterVal.str "RUNNING"),
         ("infoQueue.status", FilterVal.str "PENDING_IN_QUEUE")]] ∧
    (jobs self limit skip (StatusArg.enum JobStatus.CANCELLED) none resp).1 =
      [ApiCall.getStatusJobs limit skip
        [("backend.name", FilterVal.str self.backend_name),
         ("status", FilterVal.str "CANCELLED")]] ∧
    (jobs self limit skip (StatusArg.enum JobStatus.DONE) none resp).1 =
      [ApiCall.getStatusJobs limit skip
        [("backend.name", FilterVal.str self.backend_name),
         ("status", FilterVal.str "COMPLETED")]] ∧
    (jobs self limit skip (StatusArg.enum JobStatus.ERROR) none resp).1 =
      [ApiCall.getStatusJobs limit skip
        [("backend.name", FilterVal.str self.backend_name),
         ("status", FilterVal.regexpPred "^ERROR")]] := by
  refine ⟨?_, ?_, ?_, ?_, ?_⟩ <;>
    simp [jobs, buildApiFilter, applyStatusFilter, statusFilterTable,
          Dict.update, Dict.insert, List.foldl]

/-- Claim C6: `properties()` on a simulator-configured handle returns `None`
and performs no call on the injected API client. -/
theorem C6_properties_simulator_none (self : IBMQBackendState)
    (api_resp : RawMapping) (h : self.simulator = true) :
    properties self api_resp = (none, []) := by
  simp [properties, h]

/-- Witness for C6 at a concrete simulator handle. -/
theorem C6_properties_simulator_none_witness :
    properties ⟨"ibmq_qasm_simulator", true⟩ [] = (none, []) :=
  C6_properties_simulator_none ⟨"ibmq_qasm_simulator", true⟩ [] rfl

/-- Claim C7: when deserialization of the raw status response fails, `status`
raises a `LookupError` wrapping the validation message; when it succeeds, the
deserialized `BackendStatus` is returned. -/
theorem C7_status_validation_wrap (self : IBMQBackendState)
    (api_status : RawMapping)
    (from_dict : RawMapping → Except String BackendStatus) :
    (∀ msg, from_dict api_status = Except.error msg →
        status self api_status from_dict =
          Except.error (PyError.lookupError
            ("Couldn't get backend status: " ++ msg))) ∧
    (∀ st, from_dict api_status = Except.ok st →
        status self api_status from_dict = Except.ok st) := by
  constructor
  · intro msg h
    simp [status, h]
  · intro st h
    simp [status, h]

/-- Witness for C7 at concrete deserializers that fail and succeed. -/
theorem C7_status_validation_wrap_witness :
    status ⟨"ibmqx4", false⟩ [] (fun _ => Except.error "boom") =
      Except.error (PyError.lookupError ("Couldn't get backend status: " ++ "boom")) ∧
    status ⟨"ibmqx4", false⟩ [] (fun _ => Except.ok ⟨[]⟩) = Except.ok ⟨[]⟩ :=
  ⟨(C7_status_validation_wrap ⟨"ibmqx4", false⟩ []
      (fun _ => Except.error "boom")).1 "boom" rfl,
   (C7_status_validation_wrap ⟨"ibmqx4", false⟩ []
      (fun _ => Except.ok ⟨[]⟩)).2 ⟨[]⟩ rfl⟩

/-- Claim C9: a fetched response with an `error` field makes `retrieve_job`
fail with the `IBMQBackendError` message naming the job id and the error
value, with no warning emitted, whatever the backend and kind fields hold. -/
theorem C9_error_field_first (self : IBMQBackendState) (job_id e : String)
    (info : JobResponse) (h : info.error = some e) :
    retrieve_job self job_id (Except.ok info) =
      ([], Except.error (PyError.ibmqBackendError (failMsg job_id e))) := by
  simp [retrieve_job, h]

/-- Witness for C9: a concrete response that also names a foreign backend and
lacks the `kind` field still fails through the error-field branch. -/
theorem C9_error_field_first_witness :
    retrieve_job ⟨"ibmqx4", false⟩ "abc"
      (Except.ok ⟨some "not found", some [("name", "ibmqx2")], none,
                  some "abc", none, none⟩) =
      ([], Except.error (PyError.ibmqBackendError (failMsg "abc" "not found"))) :=
  C9_error_field_first ⟨"ibmqx4", false⟩ "abc" "not found"
    ⟨some "not found", some [("name", "ibmqx2")], none, some "abc", none, none⟩ rfl

end IBMQBackend

namespace IBMQBackend

/-- Claim C2: whenever the status-derived predicate set and the caller-supplied
`db_filter` define the same key, the final filter `jobs` passes to
`get_status_jobs` carries the status-derived value for that key. -/
theorem C2_status_precedence (self : IBMQBackendState) (limit skip : Int)
    (s : JobStatus) (tf F : Dict FilterVal) (k : String) (v w : FilterVal)
    (resp : List JobInfo)
    (htf : statusFilterTable s = some tf)
    (hv : Dict.get tf k = some v)
    (hw : Dict.get F k = some w) :
    ∃ flt, (jobs self limit skip (StatusArg.enum s) (some F) resp).1 =
        [ApiCall.getStatusJobs limit skip flt] ∧ Dict.get flt k = some v := by
  rcases F with _ | ⟨p, F'⟩
  · simp [Dict.get] at hw
  · cases s
    case INITIALIZING => simp [statusFilterTable] at htf
    case VALIDATING => simp [statusFilterTable] at htf
    all_goals
      injection htf with h
      subst h
      exact ⟨_, rfl, Dict.get_update_of_mem _ _ _ _
        (by simp [Dict.update, Dict.insert, Dict.keys, List.foldl]; try decide)
        (Dict.get_update_of_mem _ _ _ _ (by decide) hv)⟩

/-- Witness for C2: status DONE against a `db_filter` that also sets `status`;
the final filter keeps COMPLETED. -/
theorem C2_status_precedence_witness :
    ∃ flt, (jobs ⟨"ibmqx4", false⟩ 50 0 (StatusArg.enum JobStatus.DONE)
        (some [("status", FilterVal.str "RUNNING")]) []).1 =
        [ApiCall.getStatusJobs 50 0 flt] ∧
      Dict.get flt "status" = some (FilterVal.str "COMPLETED") :=
  C2_status_precedence ⟨"ibmqx4", false⟩ 50 0 JobStatus.DONE
    [("status", FilterVal.str "COMPLETED")] [("status", FilterVal.str "RUNNING")]
    "status" (FilterVal.str "COMPLETED") (FilterVal.str "RUNNING") []
    rfl (by decide) (by decide)

/-- Claim C3 (code bug): calling `jobs` with the status string FOO, which
names no `JobStatus` member, propagates the raw `KeyError` of the enum name
lookup instead of the `IBMQBackendValueError` that the docstring promises for
an unrecognized status keyword value. -/
theorem C3_unrecognized_string_keyError :
    jobs ⟨"ibmqx4", false⟩ 50 0 (StatusArg.str "FOO") none [] =
      ([], Except.error (PyError.keyError "FOO")) ∧
    raisedValueError
      (jobs ⟨"ibmqx4", false⟩ 50 0 (StatusArg.str "FOO") none []).2 = false :=
  ⟨rfl, rfl⟩

end IBMQBackend

namespace IBMQBackend

theorem processLoop_all_qobj (l : List JobInfo)
    (h : ∀ r ∈ l, r.kind = some "q-object") :
    processLoop l = (l.map mkJob, []) := by
  induction l with
  | nil => simp [processLoop]
  | cons j rest ih =>
      have hj : j.kind = some "q-object" := h j (by simp)
      have hrest := ih (fun r hr => h r (by simp [hr]))
      simp [processLoop, hj, hrest]

theorem processLoop_first_legacy (pre post : List JobInfo) (j : JobInfo)
    (hpre : ∀ r ∈ pre, r.kind = some "q-object")
    (hj : j.kind ≠ some "q-object") :
    processLoop (pre ++ j :: post) = (pre.map mkJob, [j.id]) := by
  induction pre with
  | nil => simp [processLoop, hj]
  | cons p rest ih =>
      have hp : p.kind = some "q-object" := hpre p (by simp)
      have hrest := ih (fun r hr => hpre r (by simp [hr]))
      simp [processLoop, hp, hrest]

/-- Claim C4: `jobs` stops at the first record whose `kind` is not q-object:
the result holds one handle per preceding record in order, the single legacy
id is collected and one deprecation warning naming it is emitted; with no
legacy record, every record yields a handle and no warning is emitted. -/
theorem C4_jobs_legacy_halt (self : IBMQBackendState) (limit skip : Int)
    (pre post : List JobInfo) (j : JobInfo) (i : String)
    (hpre : ∀ r ∈ pre, r.kind = some "q-object")
    (hj : j.kind ≠ some "q-object") (hid : j.id = some i) :
    (jobs self limit skip StatusArg.pynone none (pre ++ j :: post)).2 =
      Except.ok (pre.map mkJob, [Warn.deprecation (oldJobsWarningMsg i)]) ∧
    ∀ l : List JobInfo, (∀ r ∈ l, r.kind = some "q-object") →
      (jobs self limit skip StatusArg.pynone none l).2 =
        Except.ok (l.map mkJob, []) := by
  constructor
  · have hp := processLoop_first_legacy pre post j hpre hj
    simp [jobs, buildApiFilter, jobsProcess, hp, hid, pyJoin, seqStrings,
          Except.map, String.intercalate, String.intercalate.go]
  · intro l hl
    have hp := processLoop_all_qobj l hl
    simp [jobs, buildApiFilter, jobsProcess, hp]

/-- Witness for C4: one supported record, then a legacy record, then a
trailing record that is dropped because the loop halts. -/
theorem C4_jobs_legacy_halt_witness :
    (jobs ⟨"ibmqx4", false⟩ 50 0 StatusArg.pynone none
        [⟨some "a", some "d1", some "COMPLETED", some "q-object"⟩,
         ⟨some "b", none, none, none⟩,
         ⟨some "c", none, none, some "q-object"⟩]).2 =
      Except.ok ([⟨some "a", some "d1", some "COMPLETED"⟩],
                 [Warn.deprecation (oldJobsWarningMsg "b")]) :=
  (C4_jobs_legacy_halt ⟨"ibmqx4", false⟩ 50 0
      [⟨some "a", some "d1", some "COMPLETED", some "q-object"⟩]
      [⟨some "c", none, none, some "q-object"⟩]
      ⟨some "b", none, none, none⟩ "b"
      (by decide) (by decide) rfl).1

/-- Claim C5: a fetched response without an `error` field whose backend name
differs from the handle's makes `retrieve_job` emit one warning naming both
backend names and then fail with an `IBMQBackendError`; the warning never
suppresses the failure. -/
theorem C5_retrieve_foreign_backend (self : IBMQBackendState) (job_id : String)
    (info : JobResponse) (b : Dict String) (bname : String)
    (he : info.error = none) (hb : info.backend = some b)
    (hn : Dict.get b "name" = some bname) (hne : bname ≠ self.backend_name) :
    retrieve_job self job_id (Except.ok info) =
      ([Warn.user (foreignBackendWarnMsg job_id bname self.backend_name)],
       Except.error (PyError.ibmqBackendError (foreignBackendErrMsg job_id bname))) := by
  simp [retrieve_job, he, hb, hn, hne]

/-- Witness for C5: a job of backend ibmqx2 retrieved through an ibmqx4
handle warns and fails. -/
theorem C5_retrieve_foreign_backend_witness :
    retrieve_job ⟨"ibmqx4", false⟩ "abc"
      (Except.ok ⟨none, some [("name", "ibmqx2")], some "q-object",
                  some "abc", none, none⟩) =
      ([Warn.user (foreignBackendWarnMsg "abc" "ibmqx2" "ibmqx4")],
       Except.error (PyError.ibmqBackendError (foreignBackendErrMsg "abc" "ibmqx2"))) :=
  C5_retrieve_foreign_backend ⟨"ibmqx4", false⟩ "abc"
    ⟨none, some [("name", "ibmqx2")], some "q-object", some "abc", none, none⟩
    [("name", "ibmqx2")] "ibmqx2" rfl rfl (by decide) (by decide)

/-- Claim C8: with no `error` field and no backend name to read,
`retrieve_job` propagates a raw `KeyError` (for the `backend` key, or for the
`name` key inside it) rather than an `IBMQBackendError`. -/
theorem C8_missing_backend_keyError (self : IBMQBackendState) (job_id : String)
    (info : JobResponse) (he : info.error = none) :
    (info.backend = none →
      retrieve_job self job_id (Except.ok info) =
        ([], Except.error (PyError.keyError "backend"))) ∧
    (∀ b, info.backend = some b → Dict.get b "name" = none →
      retrieve_job self job_id (Except.ok info) =
        ([], Except.error (PyError.keyError "name"))) := by
  constructor
  · intro hb
    simp [retrieve_job, he, hb]
  · intro b hb hn
    simp [retrieve_job, he, hb, hn]

/-- Witness for C8: responses with no `backend` key and with a `backend`
mapping lacking `name`. -/
theorem C8_missing_backend_keyError_witness :
    retrieve_job ⟨"ibmqx4", false⟩ "abc"
      (Except.ok ⟨none, none, some "q-object", some "abc", none, none⟩) =
      ([], Except.error (PyError.keyError "backend")) ∧
    retrieve_job ⟨"ibmqx4", false⟩ "abc"
      (Except.ok ⟨none, some [], some "q-object", some "abc", none, none⟩) =
      ([], Except.error (PyError.keyError "name")) :=
  ⟨(C8_missing_backend_keyError ⟨"ibmqx4", false⟩ "abc"
      ⟨none, none, some "q-object", some "abc", none, none⟩ rfl).1 rfl,
   (C8_missing_backend_keyError ⟨"ibmqx4", false⟩ "abc"
      ⟨none, some [], some "q-object", some "abc", none, none⟩ rfl).2 [] rfl rfl⟩

end IBMQBackend

namespace IBMQBackend

/-- Claim C10: a record with no `kind` field is treated exactly like one whose
`kind` is any non-q-object value: in the `jobs` loop it halts iteration as a
legacy record, and in `retrieve_job` (no `error` field, matching backend) it
triggers the deprecation warning and the pre-qobj `IBMQBackendError`. -/
theorem C10_missing_kind_is_legacy (k : String) (hk : k ≠ "q-object") :
    (∀ (r : JobInfo) (rest : List JobInfo), r.kind = none →
        processLoop (r :: rest) = ([], [r.id]) ∧
        processLoop (r :: rest) =
          processLoop ({r with kind := some k} :: rest)) ∧
    (∀ (self : IBMQBackendState) (job_id : String) (info : JobResponse)
        (b : Dict String), info.kind = none →
        retrieve_job self job_id (Except.ok info) =
          retrieve_job self job_id (Except.ok {info with kind := some k}) ∧
        (info.error = none → info.backend = some b →
         Dict.get b "name" = some self.backend_name →
         retrieve_job self job_id (Except.ok info) =
           ([Warn.deprecation (preQobjWarnMsg job_id)],
            Except.error (PyError.ibmqBackendError
              (failMsg job_id "job in pre-qobj format"))))) := by
  constructor
  · intro r rest hr
    constructor
    · simp [processLoop, hr]
    · simp [processLoop, hr, hk]
  · intro self job_id info b hkind
    constructor
    · rcases info with ⟨err, bk, kd, jid, cd, st⟩
      simp only at hkind
      subst hkind
      cases err with
      | some e => rfl
      | none =>
          cases bk with
          | none => rfl
          | some b' =>
              cases hgn : Dict.get b' "name" with
              | none => simp [retrieve_job, hgn]
              | some bname =>
                  by_cases hbe : bname = self.backend_name
                  · simp [retrieve_job, hgn, hbe, hk]
                  · simp [retrieve_job, hgn, hbe]
    · intro he hb hn
      simp [retrieve_job, he, hb, hn, hkind]

/-- Witness for C10: a record lacking `kind` halts the loop, and a fetched
response lacking `kind` fails `retrieve_job` with the pre-qobj error. -/
theorem C10_missing_kind_is_legacy_witness :
    processLoop [⟨some "j1", none, none, none⟩] = ([], [some "j1"]) ∧
    retrieve_job ⟨"ibmqx4", false⟩ "abc"
        (Except.ok ⟨none, some [("name", "ibmqx4")], none, some "abc", none, none⟩) =
      ([Warn.deprecation (preQobjWarnMsg "abc")],
       Except.error (PyError.ibmqBackendError
         (failMsg "abc" "job in pre-qobj format"))) :=
  ⟨((C10_missing_kind_is_legacy "old" (by decide)).1
      ⟨some "j1", none, none, none⟩ [] rfl).1,
   ((C10_missing_kind_is_legacy "old" (by decide)).2 ⟨"ibmqx4", false⟩ "abc"
      ⟨none, some [("name", "ibmqx4")], none, some "abc", none, none⟩
      [("name", "ibmqx4")] rfl).2 rfl rfl (by decide)⟩

end IBMQBackend
